import Mathlib

/-!
Verification of `cpp/lifetime/lifetime2_what_is_an_object.cc`.

A shallow embedding of the translation unit: the struct `Int`, the two aliasing
demonstrations `use_Int` and `use_int`, the trait assertions of `trait_check`
and the entry point `main`.

Memory is byte addressed.  The implementation-defined parameters of the C++
implementation (size, alignment and byte order of `int`, size and alignment of
a pointer) are collected in `Target`; nothing below fixes them.  A
`static_assert` is a guard: a function whose guard fails has no execution
(`none`), since no program is built.
-/

namespace Lifetime

/-! ## The implementation -/

/-- Implementation-defined parameters; a byte has 8 bits. -/
structure Target where
  intSize : Nat
  intAlign : Nat
  ptrSize : Nat
  ptrAlign : Nat
  bigEndian : Bool

/-- The constraints C++ puts on `int`: it occupies storage, its alignment is
positive and its size is a multiple of its alignment. -/
def Target.wf (T : Target) : Prop :=
  0 < T.intSize ∧ 0 < T.intAlign ∧ T.intAlign ∣ T.intSize

instance (T : Target) : Decidable T.wf := by
  unfold Target.wf
  infer_instance

/-- The usual 64-bit little-endian data model: `int` is 4 bytes, 4-aligned. -/
def lp64 : Target := ⟨4, 4, 8, 8, false⟩

/-- A big-endian implementation with a 2-byte `int`. -/
def be16 : Target := ⟨2, 2, 2, 2, true⟩

/-! ## Object representation of `int` -/

/-- The `w` low-order bytes of `n`, least significant first. -/
def toBytesLE : Nat → Nat → List Nat
  | 0, _ => []
  | w + 1, n => n % 256 :: toBytesLE w (n / 256)

/-- The number whose bytes, least significant first, are `bs`. -/
def ofBytesLE : List Nat → Nat
  | [] => 0
  | b :: bs => b + 256 * ofBytesLE bs

/-- The values an `int` can hold (two's complement). -/
def isIntVal (T : Target) (v : Int) : Prop :=
  -(2 ^ (8 * T.intSize - 1) : Int) ≤ v ∧ v < 2 ^ (8 * T.intSize - 1)

instance (T : Target) (v : Int) : Decidable (isIntVal T v) := by
  unfold isIntVal
  infer_instance

/-- The object representation of an `int`: its two's complement bytes in the
byte order of the implementation. -/
def encodeInt (T : Target) (v : Int) : List Nat :=
  let le := toBytesLE T.intSize (v % 2 ^ (8 * T.intSize)).toNat
  if T.bigEndian then le.reverse else le

/-- The `int` value a sequence of bytes represents. -/
def decodeInt (T : Target) (bs : List Nat) : Int :=
  let u := ofBytesLE (if T.bigEndian then bs.reverse else bs)
  if u < 2 ^ (8 * T.intSize - 1) then (u : Int) else (u : Int) - 2 ^ (8 * T.intSize)

/-! ## Memory -/

/-- Byte-addressed memory. -/
abbrev Mem := Nat → Nat

/-- Overwrite the bytes at `a, a+1, ...` with `bs`. -/
def writeBytes (m : Mem) (a : Nat) (bs : List Nat) : Mem :=
  fun x => if a ≤ x ∧ x < a + bs.length then bs.getD (x - a) 0 else m x

/-- The `n` bytes at `a, a+1, ...`. -/
def readBytes (m : Mem) (a n : Nat) : List Nat :=
  (List.range n).map (fun k => m (a + k))

/-- Assignment to the `int` object at address `a`. -/
def storeInt (T : Target) (m : Mem) (a : Nat) (v : Int) : Mem :=
  writeBytes m a (encodeInt T v)

/-- Read of the `int` object at address `a`. -/
def loadInt (T : Target) (m : Mem) (a : Nat) : Int :=
  decodeInt T (readBytes m a T.intSize)

/-! ## Types and layout -/

/-- The scalar types a data member can have. -/
inductive Scalar where
  | char
  | int
  deriving DecidableEq

/-- A non-static data member. -/
structure Member where
  name : String
  ty : Scalar
  deriving DecidableEq

/-- A class without base classes: its data members in declaration order, and
which of the things that make a class non-trivial it declares. -/
structure ClassDesc where
  members : List Member
  hasVirtual : Bool
  userDefaultCtor : Bool
  userDtor : Bool
  userCopyCtor : Bool
  userMoveCtor : Bool
  userCopyAssign : Bool
  userMoveAssign : Bool
  deriving DecidableEq

/-- The types the trait predicates are asked about. -/
inductive CType where
  | void
  | scalar (s : Scalar)
  | ref (t : CType)
  | func
  | cls (c : ClassDesc)
  deriving DecidableEq

/-- Source line 6: `struct Int { int i; };`. -/
def struct_Int : ClassDesc :=
  ⟨[⟨"i", Scalar.int⟩], false, false, false, false, false, false, false⟩

/-- The type `Int`. -/
def tInt : CType := CType.cls struct_Int

/-- The type `int`. -/
def tint : CType := CType.scalar Scalar.int

/-- Round `n` up to a multiple of `a`. -/
def alignUp (n a : Nat) : Nat := (n + a - 1) / a * a

/-- Size of a scalar. -/
def Scalar.size (T : Target) : Scalar → Nat
  | Scalar.char => 1
  | Scalar.int => T.intSize

/-- Alignment of a scalar. -/
def Scalar.align (T : Target) : Scalar → Nat
  | Scalar.char => 1
  | Scalar.int => T.intAlign

/-- Modelled from the spec: the layout rule of the C++ implementation, which the
repository does not contain ("no padding, no vtable, no hidden bytes").  Members
are placed in declaration order from offset `off`, each at the next multiple of
its alignment; returns the offset of each member and the end of the last. -/
def layoutMembers (T : Target) : Nat → List Member → List (String × Nat) × Nat
  | off, [] => ([], off)
  | off, m :: ms =>
    let o := alignUp off (m.ty.align T)
    let r := layoutMembers T (o + m.ty.size T) ms
    ((m.name, o) :: r.1, r.2)

/-- Where the members start: after the vtable pointer when there is one. -/
def ClassDesc.start (T : Target) (c : ClassDesc) : Nat :=
  if c.hasVirtual then T.ptrSize else 0

/-- Alignment of a class: the strictest alignment among its parts. -/
def ClassDesc.align (T : Target) (c : ClassDesc) : Nat :=
  (c.members.map (fun m => m.ty.align T)).foldl max (if c.hasVirtual then T.ptrAlign else 1)

/-- Modelled from the spec: `sizeof` of a class, which the implementation
defines and the repository does not contain: the end of the last member (at
least one byte), padded to the alignment of the class. -/
def ClassDesc.size (T : Target) (c : ClassDesc) : Nat :=
  alignUp (max (layoutMembers T (c.start T) c.members).2 1) (c.align T)

/-- The operator `sizeof`; it is ill-formed on `void` and on function types, and
on a reference it gives the size of the referenced type. -/
def sizeof (T : Target) : CType → Option Nat
  | CType.void => none
  | CType.func => none
  | CType.scalar s => some (s.size T)
  | CType.ref t => sizeof T t
  | CType.cls c => some (c.size T)

/-- Offset of the member `name` in an object of class `c`. -/
def offsetof (T : Target) (c : ClassDesc) (name : String) : Option Nat :=
  (layoutMembers T (c.start T) c.members).1.lookup name


/-! ## Type traits -/

/-- Modelled from the spec: `std::is_trivially_constructible<T>` of
`<type_traits>`, which the repository does not contain: "an instance can be
brought into existence without executing user-defined initialization logic".  A
class qualifies when it declares no constructor of its own, has no virtual
function and no destructor of its own. -/
def is_trivially_constructible : CType → Bool
  | CType.void => false
  | CType.func => false
  | CType.ref _ => false
  | CType.scalar _ => true
  | CType.cls c =>
    !c.userDefaultCtor && !c.userCopyCtor && !c.userMoveCtor && !c.hasVirtual && !c.userDtor

/-- Modelled from the spec: `std::is_trivially_destructible<T>` of
`<type_traits>`, which the repository does not contain: "destruction requires no
user-defined cleanup logic". -/
def is_trivially_destructible : CType → Bool
  | CType.void => false
  | CType.func => false
  | CType.ref _ => true
  | CType.scalar _ => true
  | CType.cls c => !c.userDtor

/-- Modelled from the spec: `std::is_trivially_copyable<T>` of `<type_traits>`,
which the repository does not contain: "copying/moving an instance is equivalent
to copying its raw storage bytes". -/
def is_trivially_copyable : CType → Bool
  | CType.void => false
  | CType.func => false
  | CType.ref _ => false
  | CType.scalar _ => true
  | CType.cls c =>
    !c.userCopyCtor && !c.userMoveCtor && !c.userCopyAssign && !c.userMoveAssign
      && !c.userDtor && !c.hasVirtual

/-- Modelled from the spec: `std::is_trivially_move_constructible<T>` of
`<type_traits>`, which the repository does not contain: "constructing from a
temporary is equivalent to a raw storage copy". -/
def is_trivially_move_constructible : CType → Bool
  | CType.void => false
  | CType.func => false
  | CType.ref _ => true
  | CType.scalar _ => true
  | CType.cls c => !c.userMoveCtor && !c.userCopyCtor && !c.userDtor && !c.hasVirtual

/-- Standard member layout: for a class without bases, no virtual function. -/
def is_standard_layout : CType → Bool
  | CType.void => false
  | CType.func => false
  | CType.ref _ => false
  | CType.scalar _ => true
  | CType.cls c => !c.hasVirtual

/-- Modelled from the spec: `std::is_pod<T>` of `<type_traits>`, which the
repository does not contain: "simultaneously trivially constructible, trivially
copyable, and has standard (non-customized) member layout". -/
def is_pod (t : CType) : Bool :=
  is_trivially_constructible t && is_trivially_copyable t && is_standard_layout t

/-- Source lines 45-46: "an object is a type that is not a function, not a
reference, not void." -/
def is_object : CType → Bool
  | CType.void => false
  | CType.func => false
  | CType.ref _ => false
  | CType.scalar _ => true
  | CType.cls _ => true

/-! ## The program -/

/-- What a running program can change: memory and the bytes written to the
standard output. -/
structure State where
  mem : Mem
  out : List Nat

/-- The functions of the translation unit. -/
inductive Fn where
  | main
  | trait_check
  | use_Int
  | use_int
  deriving DecidableEq

/-- The result of running a function: the value returned, the state it leaves,
and the functions entered during the run, in order, itself first. -/
structure Outcome (α : Type) where
  ret : α
  st : State
  calls : List Fn

/-- A static assertion: a false one stops the build, so there is no run. -/
def static_assert (b : Bool) : Option Unit :=
  if b then some () else none

/-- Source lines 10-18, the local `s` living at address `sp`. -/
def use_Int (T : Target) (sp : Nat) (st : State) : Option (Outcome Int) := do
  static_assert (sizeof T tInt == sizeof T tint)
  -- Int s{15};
  let s := sp
  let off ← offsetof T struct_Int "i"
  let m1 := storeInt T st.mem (s + off) 15
  -- int &i = reinterpret_cast<int &>(s);
  let i := s
  -- i = 23;
  let m2 := storeInt T m1 i 23
  -- return s.i;
  pure ⟨loadInt T m2 (s + off), ⟨m2, st.out⟩, [Fn.use_Int]⟩

/-- Source lines 20-26, the local `s` living at address `sp`. -/
def use_int (T : Target) (sp : Nat) (st : State) : Option (Outcome Int) := do
  static_assert (sizeof T tint == sizeof T tint)
  -- int s{15};
  let s := sp
  let m1 := storeInt T st.mem s 15
  -- int &i = reinterpret_cast<int &>(s);
  let i := s
  -- i = 23;
  let m2 := storeInt T m1 i 23
  -- return i;
  pure ⟨loadInt T m2 i, ⟨m2, st.out⟩, [Fn.use_int]⟩

/-- The steps of `use_Int` with `v` in place of 15 and `v2` in place of 23. -/
def use_Int_with (T : Target) (v v2 : Int) (sp : Nat) (st : State) : Option (Outcome Int) := do
  static_assert (sizeof T tInt == sizeof T tint)
  let s := sp
  let off ← offsetof T struct_Int "i"
  let m1 := storeInt T st.mem (s + off) v
  let i := s
  let m2 := storeInt T m1 i v2
  pure ⟨loadInt T m2 (s + off), ⟨m2, st.out⟩, [Fn.use_Int]⟩

/-- The steps of `use_int` with `v` in place of 15 and `v2` in place of 23. -/
def use_int_with (T : Target) (v v2 : Int) (sp : Nat) (st : State) : Option (Outcome Int) := do
  static_assert (sizeof T tint == sizeof T tint)
  let s := sp
  let m1 := storeInt T st.mem s v
  let i := s
  let m2 := storeInt T m1 i v2
  pure ⟨loadInt T m2 i, ⟨m2, st.out⟩, [Fn.use_int]⟩

/-- Source lines 28-49. -/
def trait_check (st : State) : Option (Outcome Unit) := do
  static_assert (is_trivially_constructible tInt)
  static_assert (is_trivially_constructible tint)
  static_assert (is_trivially_destructible tInt)
  static_assert (is_trivially_destructible tint)
  static_assert (is_trivially_copyable tInt)
  static_assert (is_trivially_copyable tint)
  static_assert (is_trivially_move_constructible tInt)
  static_assert (is_trivially_move_constructible tint)
  static_assert (is_pod tInt)
  static_assert (is_pod tint)
  static_assert (is_object tInt)
  static_assert (is_object tint)
  pure ⟨(), st, [Fn.trait_check]⟩

/-- The twelve conditions asserted in `trait_check`, in source order. -/
def trait_check_asserts : List Bool :=
  [is_trivially_constructible tInt, is_trivially_constructible tint,
   is_trivially_destructible tInt, is_trivially_destructible tint,
   is_trivially_copyable tInt, is_trivially_copyable tint,
   is_trivially_move_constructible tInt, is_trivially_move_constructible tint,
   is_pod tInt, is_pod tint,
   is_object tInt, is_object tint]

/-- Source lines 51-55. -/
def main (st : State) : Option (Outcome Int) := do
  let r ← trait_check st
  pure ⟨0, r.st, Fn.main :: r.calls⟩

/-- A state to run examples in: zeroed memory, nothing written. -/
def st0 : State := ⟨fun _ => 0, []⟩


/-! ## Lemmas on the object representation -/

theorem toBytesLE_length (w n : Nat) : (toBytesLE w n).length = w := by
  induction w generalizing n with
  | zero => rfl
  | succ w ih => simp [toBytesLE, ih]

theorem ofBytesLE_toBytesLE (w n : Nat) : ofBytesLE (toBytesLE w n) = n % 256 ^ w := by
  induction w generalizing n with
  | zero => simp [toBytesLE, ofBytesLE, Nat.mod_one]
  | succ w ih =>
    simp only [toBytesLE, ofBytesLE, ih]
    rw [pow_succ, mul_comm (256 ^ w) 256, Nat.mod_mul]

theorem encodeInt_length (T : Target) (v : Int) : (encodeInt T v).length = T.intSize := by
  unfold encodeInt
  by_cases h : T.bigEndian <;> simp [h, toBytesLE_length]

theorem decodeInt_encodeInt (T : Target) (v : Int) (hw : 0 < T.intSize) (hv : isIntVal T v) :
    decodeInt T (encodeInt T v) = v := by
  obtain ⟨hlo, hhi⟩ := hv
  have hu : ofBytesLE (if T.bigEndian then (encodeInt T v).reverse else encodeInt T v)
      = (v % 2 ^ (8 * T.intSize)).toNat := by
    have hb : (if T.bigEndian then (encodeInt T v).reverse else encodeInt T v)
        = toBytesLE T.intSize (v % 2 ^ (8 * T.intSize)).toNat := by
      unfold encodeInt
      by_cases h : T.bigEndian <;> simp [h]
    rw [hb, ofBytesLE_toBytesLE]
    have h256 : (256 : Nat) ^ T.intSize = 2 ^ (8 * T.intSize) := by
      rw [pow_mul]; norm_num
    rw [h256]
    apply Nat.mod_eq_of_lt
    have hpos : (0 : Int) < 2 ^ (8 * T.intSize) := by positivity
    have h1 := Int.emod_lt_of_pos v hpos
    have h0 := Int.emod_nonneg v (ne_of_gt hpos)
    have : ((v % 2 ^ (8 * T.intSize)).toNat : Int) < ((2 ^ (8 * T.intSize) : Nat) : Int) := by
      rw [Int.toNat_of_nonneg h0]; push_cast; exact h1
    exact_mod_cast this
  have hM : (2 : Int) ^ (8 * T.intSize) = 2 * 2 ^ (8 * T.intSize - 1) := by
    have : 8 * T.intSize = (8 * T.intSize - 1) + 1 := by omega
    conv_lhs => rw [this, pow_succ]
    ring
  have hHpos : (0 : Int) < 2 ^ (8 * T.intSize - 1) := by positivity
  have hMpos : (0 : Int) < 2 ^ (8 * T.intSize) := by positivity
  have h0 := Int.emod_nonneg v (ne_of_gt hMpos)
  unfold decodeInt
  simp only [hu]
  have hcast : (((v % 2 ^ (8 * T.intSize)).toNat : Nat) : Int) = v % 2 ^ (8 * T.intSize) :=
    Int.toNat_of_nonneg h0
  have hlt : ((v % 2 ^ (8 * T.intSize)).toNat < 2 ^ (8 * T.intSize - 1)) ↔
      (v % 2 ^ (8 * T.intSize) < 2 ^ (8 * T.intSize - 1)) := by
    rw [← hcast]
    constructor
    · intro h; exact_mod_cast h
    · intro h; exact_mod_cast h
  by_cases hneg : 0 ≤ v
  · have hmod : v % 2 ^ (8 * T.intSize) = v := Int.emod_eq_of_lt hneg (by omega)
    rw [if_pos (hlt.mpr (by rw [hmod]; exact hhi)), hcast, hmod]
  · have hmod : v % 2 ^ (8 * T.intSize) = v + 2 ^ (8 * T.intSize) := by
      rw [← Int.add_emod_self]
      exact Int.emod_eq_of_lt (by omega) (by omega)
    rw [if_neg (fun h => by have := hlt.mp h; rw [hmod] at this; omega), hcast, hmod]
    ring

/-! ## Lemmas on memory -/

theorem readBytes_writeBytes (m : Mem) (a : Nat) (bs : List Nat) :
    readBytes (writeBytes m a bs) a bs.length = bs := by
  apply List.ext_getElem
  · simp [readBytes]
  · intro k h1 h2
    simp [readBytes, writeBytes, h2, List.getD_eq_getElem]

theorem writeBytes_outside (m : Mem) (a : Nat) (bs : List Nat) (x : Nat)
    (hx : x < a ∨ a + bs.length ≤ x) : writeBytes m a bs x = m x := by
  unfold writeBytes
  rw [if_neg]
  omega

theorem loadInt_storeInt (T : Target) (m : Mem) (a : Nat) (v : Int) (hw : 0 < T.intSize)
    (hv : isIntVal T v) : loadInt T (storeInt T m a v) a = v := by
  unfold loadInt storeInt
  have h := readBytes_writeBytes m a (encodeInt T v)
  rw [encodeInt_length] at h
  rw [h, decodeInt_encodeInt T v hw hv]

theorem storeInt_outside (T : Target) (m : Mem) (a : Nat) (v : Int) (x : Nat)
    (hx : x < a ∨ a + T.intSize ≤ x) : storeInt T m a v x = m x := by
  unfold storeInt
  apply writeBytes_outside
  rw [encodeInt_length]
  exact hx

/-! ## Lemmas on layout -/

theorem alignUp_zero (a : Nat) : alignUp 0 a = 0 := by
  unfold alignUp
  rcases Nat.eq_zero_or_pos a with h | h
  · simp [h]
  · have : (0 + a - 1) / a = 0 := Nat.div_eq_of_lt (by omega)
    rw [this, Nat.zero_mul]

theorem alignUp_of_dvd (n a : Nat) (ha : 0 < a) (h : a ∣ n) : alignUp n a = n := by
  obtain ⟨k, rfl⟩ := h
  unfold alignUp
  have : (a * k + a - 1) / a = k := by
    rw [Nat.add_sub_assoc ha, Nat.mul_add_div ha, Nat.div_eq_of_lt (by omega), Nat.add_zero]
  rw [this, Nat.mul_comm]

theorem offsetof_struct_Int (T : Target) : offsetof T struct_Int "i" = some 0 := by
  simp [offsetof, struct_Int, layoutMembers, ClassDesc.start, alignUp_zero]

theorem sizeof_struct_Int (T : Target) (h : T.wf) : sizeof T tInt = some T.intSize := by
  obtain ⟨hs, ha, hd⟩ := h
  have h1 : max T.intSize 1 = T.intSize := Nat.max_eq_left hs
  have h2 : max 1 T.intAlign = T.intAlign := Nat.max_eq_right ha
  simp [sizeof, tInt, ClassDesc.size, ClassDesc.align, struct_Int, layoutMembers,
    ClassDesc.start, alignUp_zero, Scalar.size, Scalar.align, h1, h2,
    alignUp_of_dvd T.intSize T.intAlign ha hd]

theorem sizeof_tint (T : Target) : sizeof T tint = some T.intSize := rfl

theorem isIntVal_of_small (T : Target) (v : Int) (hw : 0 < T.intSize) (hlo : -128 ≤ v)
    (hhi : v < 128) : isIntVal T v := by
  have h7 : (2 : Int) ^ 7 ≤ 2 ^ (8 * T.intSize - 1) :=
    pow_le_pow_right₀ (by norm_num) (by omega)
  have : (2 : Int) ^ 7 = 128 := by norm_num
  constructor <;> omega

/-! ## The model is not degenerate -/

/-- A `char` followed by an `int` is padded: 8 bytes on `lp64`, not 5. -/
theorem sizeof_padded :
    sizeof lp64 (CType.cls ⟨[⟨"c", Scalar.char⟩, ⟨"i", Scalar.int⟩], false, false, false,
      false, false, false, false⟩) = some 8 := by decide

/-- A virtual function adds a vtable pointer: 16 bytes on `lp64`, not 4. -/
theorem sizeof_virtual :
    sizeof lp64 (CType.cls ⟨[⟨"i", Scalar.int⟩], true, false, false,
      false, false, false, false⟩) = some 16 := by decide

/-- A class with a virtual function is not a POD, and a reference is not an
object. -/
theorem traits_negative :
    is_pod (CType.cls ⟨[⟨"i", Scalar.int⟩], true, false, false, false, false, false, false⟩)
      = false ∧
    is_trivially_destructible
      (CType.cls ⟨[⟨"i", Scalar.int⟩], false, false, true, false, false, false, false⟩) = false ∧
    is_object (CType.ref tint) = false := by decide

/-- A value that is not an `int` value does not survive a store. -/
theorem store_wraps : loadInt lp64 (storeInt lp64 st0.mem 100 (2 ^ 31)) 100 = -2 ^ 31 := by
  decide

/-! ## The two demonstrations, unfolded -/

theorem use_Int_with_eq (T : Target) (h : T.wf) (v v2 : Int) (sp : Nat) (st : State) :
    use_Int_with T v v2 sp st =
      some ⟨loadInt T (storeInt T (storeInt T st.mem sp v) sp v2) sp,
        ⟨storeInt T (storeInt T st.mem sp v) sp v2, st.out⟩, [Fn.use_Int]⟩ := by
  simp [use_Int_with, static_assert, sizeof_struct_Int T h, sizeof_tint, offsetof_struct_Int]

theorem use_int_with_eq (T : Target) (v v2 : Int) (sp : Nat) (st : State) :
    use_int_with T v v2 sp st =
      some ⟨loadInt T (storeInt T (storeInt T st.mem sp v) sp v2) sp,
        ⟨storeInt T (storeInt T st.mem sp v) sp v2, st.out⟩, [Fn.use_int]⟩ := by
  simp [use_int_with, static_assert]

theorem use_Int_eq_with (T : Target) (sp : Nat) (st : State) :
    use_Int T sp st = use_Int_with T 15 23 sp st := rfl

theorem use_int_eq_with (T : Target) (sp : Nat) (st : State) :
    use_int T sp st = use_int_with T 15 23 sp st := rfl

theorem trait_check_eq (st : State) : trait_check st = some ⟨(), st, [Fn.trait_check]⟩ := by
  simp [trait_check, static_assert, is_trivially_constructible, is_trivially_destructible,
    is_trivially_copyable, is_trivially_move_constructible, is_pod, is_standard_layout,
    is_object, tInt, tint, struct_Int]

theorem main_eq (st : State) : main st = some ⟨0, st, [Fn.main, Fn.trait_check]⟩ := by
  simp [main, trait_check_eq]

/-! ## The claims -/

/-- C1: `use_Int()` returns 23: the field of an `Int` built with `i = 15`, after
23 is assigned through the `int` reference to its storage, reads 23. -/
theorem use_Int_returns_23 (T : Target) (h : T.wf) (sp : Nat) (st : State) :
    (use_Int T sp st).map (fun o => o.ret) = some 23 := by
  rw [use_Int_eq_with, use_Int_with_eq T h]
  simp [loadInt_storeInt T _ sp 23 h.1 (isIntVal_of_small T 23 h.1 (by norm_num) (by norm_num))]

theorem use_Int_returns_23_witness :
    lp64.wf ∧ (use_Int lp64 100 st0).map (fun o => o.ret) = some 23 :=
  ⟨by decide, use_Int_returns_23 lp64 (by decide) 100 st0⟩

/-- C2: `use_int()` returns 23: the value returned, read through the alias `i`,
is 23, and it is the value of `s` (the `int` at the address of `s` in the state
the function leaves). -/
theorem use_int_returns_23 (T : Target) (h : T.wf) (sp : Nat) (st : State) :
    ∃ o, use_int T sp st = some o ∧ o.ret = 23 ∧ loadInt T o.st.mem sp = o.ret := by
  rw [use_int_eq_with, use_int_with_eq T]
  exact ⟨_, rfl,
    loadInt_storeInt T _ sp 23 h.1 (isIntVal_of_small T 23 h.1 (by norm_num) (by norm_num)), rfl⟩

theorem use_int_returns_23_witness :
    be16.wf ∧
    ∃ o, use_int be16 7 st0 = some o ∧ o.ret = 23 ∧ loadInt be16 o.st.mem 7 = o.ret :=
  ⟨by decide, use_int_returns_23 be16 (by decide) 7 st0⟩

/-- C3: alias round trip: with any `v` in place of 15 and any `int` value `v2`
in place of 23, the steps of `use_Int` return `v2`; the result is the same for
every initial value.  With 15 and 23 the steps are `use_Int` itself. -/
theorem alias_round_trip (T : Target) (h : T.wf) (v v2 : Int) (hv2 : isIntVal T v2)
    (sp : Nat) (st : State) :
    (use_Int_with T v v2 sp st).map (fun o => o.ret) = some v2 ∧
    (∀ w, (use_Int_with T w v2 sp st).map (fun o => o.ret)
        = (use_Int_with T v v2 sp st).map (fun o => o.ret)) ∧
    use_Int_with T 15 23 sp st = use_Int T sp st := by
  have key : ∀ w, (use_Int_with T w v2 sp st).map (fun o => o.ret) = some v2 := by
    intro w
    rw [use_Int_with_eq T h]
    simp [loadInt_storeInt T _ sp v2 h.1 hv2]
  exact ⟨key v, fun w => by rw [key w, key v], rfl⟩

theorem alias_round_trip_witness :
    lp64.wf ∧ isIntVal lp64 123456 ∧
    (use_Int_with lp64 (-40000) 123456 64 st0).map (fun o => o.ret) = some 123456 ∧
    (∀ w, (use_Int_with lp64 w 123456 64 st0).map (fun o => o.ret)
        = (use_Int_with lp64 (-40000) 123456 64 st0).map (fun o => o.ret)) ∧
    use_Int_with lp64 15 23 64 st0 = use_Int lp64 64 st0 :=
  ⟨by decide, by decide, alias_round_trip lp64 (by decide) (-40000) 123456 (by decide) 64 st0⟩

/-- C4: the wrapper and the primitive demonstration agree: `use_Int()` and
`use_int()` both return, and return the same value; for every `v` and `v2` the
two procedures both return, with equal results and equal final states. -/
theorem wrapper_matches_primitive (T : Target) (h : T.wf) (sp : Nat) (st : State) :
    (∃ a b, use_Int T sp st = some a ∧ use_int T sp st = some b ∧ a.ret = b.ret) ∧
    ∀ v v2, ∃ a b, use_Int_with T v v2 sp st = some a ∧ use_int_with T v v2 sp st = some b ∧
      a.ret = b.ret ∧ a.st = b.st := by
  constructor
  · rw [use_Int_eq_with, use_int_eq_with, use_Int_with_eq T h, use_int_with_eq T]
    exact ⟨_, _, rfl, rfl, rfl⟩
  · intro v v2
    rw [use_Int_with_eq T h, use_int_with_eq T]
    exact ⟨_, _, rfl, rfl, rfl, rfl⟩

theorem wrapper_matches_primitive_witness :
    be16.wf ∧
    (∃ a b, use_Int be16 32 st0 = some a ∧ use_int be16 32 st0 = some b ∧ a.ret = b.ret) ∧
    ∀ v v2, ∃ a b, use_Int_with be16 v v2 32 st0 = some a ∧
      use_int_with be16 v v2 32 st0 = some b ∧ a.ret = b.ret ∧ a.st = b.st :=
  ⟨by decide, wrapper_matches_primitive be16 (by decide) 32 st0⟩

/-- C5: `sizeof(Int) == sizeof(int)`: under the layout rule the struct with the
single member `int i` has the size of `int`, its member at offset 0, and the
static assertion of `use_Int` holds. -/
theorem sizeof_Int_eq_sizeof_int (T : Target) (h : T.wf) :
    sizeof T tInt = sizeof T tint ∧
    sizeof T tInt = some T.intSize ∧
    offsetof T struct_Int "i" = some 0 ∧
    static_assert (sizeof T tInt == sizeof T tint) = some () := by
  refine ⟨?_, sizeof_struct_Int T h, offsetof_struct_Int T, ?_⟩
  · rw [sizeof_struct_Int T h, sizeof_tint]
  · simp [static_assert, sizeof_struct_Int T h, sizeof_tint]

theorem sizeof_Int_eq_sizeof_int_witness :
    lp64.wf ∧
    sizeof lp64 tInt = sizeof lp64 tint ∧
    sizeof lp64 tInt = some lp64.intSize ∧
    offsetof lp64 struct_Int "i" = some 0 ∧
    static_assert (sizeof lp64 tInt == sizeof lp64 tint) = some () :=
  ⟨by decide, sizeof_Int_eq_sizeof_int lp64 (by decide)⟩

/-- C6: for `Int` and for `int` each of the six trait predicates is true, so the
twelve assertions of `trait_check` hold and the function is built and runs. -/
theorem trait_check_asserts_hold :
    (is_trivially_constructible tInt = true ∧ is_trivially_destructible tInt = true ∧
      is_trivially_copyable tInt = true ∧ is_trivially_move_constructible tInt = true ∧
      is_pod tInt = true ∧ is_object tInt = true) ∧
    (is_trivially_constructible tint = true ∧ is_trivially_destructible tint = true ∧
      is_trivially_copyable tint = true ∧ is_trivially_move_constructible tint = true ∧
      is_pod tint = true ∧ is_object tint = true) ∧
    trait_check_asserts = List.replicate 12 true ∧
    ∀ st, (trait_check st).isSome = true := by
  refine ⟨by decide, by decide, by decide, ?_⟩
  intro st
  rw [trait_check_eq]
  rfl

/-- C7: `main` runs `trait_check` and returns 0 from every state; `trait_check`
returns leaving memory and output as they were, and so does `main`. -/
theorem main_returns_zero (st : State) :
    main st = some ⟨0, st, [Fn.main, Fn.trait_check]⟩ ∧
    (¬ ∃ s o, main s = some o ∧ o.ret ≠ 0) ∧
    trait_check st = some ⟨(), st, [Fn.trait_check]⟩ := by
  refine ⟨main_eq st, ?_, trait_check_eq st⟩
  rintro ⟨s, o, ho, hne⟩
  rw [main_eq] at ho
  cases ho
  exact hne rfl

/-- C8, as stated, fails: in the run of `main` from `st0` neither `use_Int` nor
`use_int` is called once; the calls are `main` and `trait_check`. -/
theorem main_calls_counterexample :
    ∃ o, main st0 = some o ∧ o.calls = [Fn.main, Fn.trait_check] ∧
      ¬ (o.calls.count Fn.use_Int = 1) ∧ ¬ (o.calls.count Fn.use_int = 1) :=
  ⟨_, main_eq st0, rfl, by decide, by decide⟩

/-- C8, amended: one execution of `main` makes exactly one call, to
`trait_check`, and no call to `use_Int` or to `use_int`. -/
theorem main_calls_only_trait_check (st : State) :
    ∃ o, main st = some o ∧ o.calls = [Fn.main, Fn.trait_check] ∧
      o.calls.count Fn.trait_check = 1 ∧
      o.calls.count Fn.use_Int = 0 ∧ o.calls.count Fn.use_int = 0 :=
  ⟨_, main_eq st, rfl, rfl, rfl, rfl⟩

/-- C9: `use_Int` and `use_int` change nothing but their local `s`: each returns,
calls no other function, leaves the output as it was, and leaves every byte
outside the storage of `s` (`sizeof(Int)`, respectively `sizeof(int)`, bytes at
`sp`) as it was. -/
theorem use_frame (T : Target) (h : T.wf) (sp : Nat) (st : State) :
    (∃ o n, use_Int T sp st = some o ∧ sizeof T tInt = some n ∧
      o.st.out = st.out ∧ o.calls = [Fn.use_Int] ∧
      ∀ a, a < sp ∨ sp + n ≤ a → o.st.mem a = st.mem a) ∧
    (∃ o n, use_int T sp st = some o ∧ sizeof T tint = some n ∧
      o.st.out = st.out ∧ o.calls = [Fn.use_int] ∧
      ∀ a, a < sp ∨ sp + n ≤ a → o.st.mem a = st.mem a) := by
  have hmem : ∀ a, a < sp ∨ sp + T.intSize ≤ a →
      storeInt T (storeInt T st.mem sp 15) sp 23 a = st.mem a := by
    intro a ha
    rw [storeInt_outside T _ sp 23 a ha, storeInt_outside T _ sp 15 a ha]
  constructor
  · rw [use_Int_eq_with, use_Int_with_eq T h]
    exact ⟨_, _, rfl, sizeof_struct_Int T h, rfl, rfl, hmem⟩
  · rw [use_int_eq_with, use_int_with_eq T]
    exact ⟨_, _, rfl, sizeof_tint T, rfl, rfl, hmem⟩

theorem use_frame_witness :
    lp64.wf ∧
    (∃ o n, use_Int lp64 100 st0 = some o ∧ sizeof lp64 tInt = some n ∧
      o.st.out = st0.out ∧ o.calls = [Fn.use_Int] ∧
      ∀ a, a < 100 ∨ 100 + n ≤ a → o.st.mem a = st0.mem a) ∧
    (∃ o n, use_int lp64 100 st0 = some o ∧ sizeof lp64 tint = some n ∧
      o.st.out = st0.out ∧ o.calls = [Fn.use_int] ∧
      ∀ a, a < 100 ∨ 100 + n ≤ a → o.st.mem a = st0.mem a) :=
  ⟨by decide, use_frame lp64 (by decide) 100 st0⟩

end Lifetime
